import Mathlib

/-!
Verification of the OPTIKORM Locust load-test script (`locustfile.py`).

The script simulates HTTP users.  Per simulated user (`OptikormUser`):
- `on_start` registers a fresh account (falling back to login), stores an
  auth token in the session client's default headers, and optionally creates
  one nutrient, one fish and one feed;
- three weighted tasks (`list_resources`, `calculate`, `ping_api_root`)
  issue further requests against the stored session state.

The embedding below models the script's observable behavior as pure
functions from the environment-variable configuration, the randomly
generated name components, and the server's responses, to the list of HTTP
requests issued plus the resulting session state.  Machine concerns owned
by the Locust framework (scheduling, pacing, HTTP transport) are out of
scope; what is modelled is exactly the branching logic of the script.
-/

/-- A Python value as it can appear in a parsed JSON response field and be
stored in a session attribute (`self.token`, `self.nutrient_id`, ...).
`PyVal.none` is Python `None`, which `dict.get` returns for a missing key. -/
inductive PyVal where
  | none : PyVal
  | str (s : String) : PyVal
  | int (n : Int) : PyVal
  | bool (b : Bool) : PyVal
deriving DecidableEq, Repr

/-- Python truthiness (`if v:`): `None`, `""`, `0` and `False` are falsy. -/
def pyTruthy : PyVal → Bool
  | PyVal.none => false
  | PyVal.str s => s != ""
  | PyVal.int n => n != 0
  | PyVal.bool b => b

/-- Python `str(v)`, as used by the f-string `f"Token {self.token}"` and by
`str(self.nutrient_id)` when building the nutrient mappings. -/
def pyStr : PyVal → String
  | PyVal.none => "None"
  | PyVal.str s => s
  | PyVal.int n => toString n
  | PyVal.bool b => if b then "True" else "False"

/-- Python `int(v)`, as used by `int(self.fish_id)` in the `calculate`
task.  `none` models the call raising (`int(None)` is a `TypeError`,
`int` of a non-numeric string is a `ValueError`). -/
def pyInt : PyVal → Option Int
  | PyVal.none => Option.none
  | PyVal.str s => s.toInt?
  | PyVal.int n => some n
  | PyVal.bool b => some (if b then 1 else 0)

/-- `resp.json().get(key)`: look the key up in the parsed JSON object,
returning Python `None` when absent. -/
def jsonGet (kv : List (String × PyVal)) (key : String) : PyVal :=
  (kv.lookup key).getD PyVal.none

/-- An HTTP response as the script observes it: a status code and the JSON
body.  `body = none` models a body on which `resp.json()` raises (not valid
JSON, or not an object, so that `.get` fails). -/
structure Resp where
  status_code : Nat
  body : Option (List (String × PyVal))
deriving DecidableEq, Repr

/-- A response is well formed when a 200/201 status comes with a parseable
JSON object body, as the backend API documents (`expects {token}` /
`→ {id}`). -/
def RespWF (r : Resp) : Prop :=
  (r.status_code = 200 ∨ r.status_code = 201) → r.body ≠ Option.none

/-- The HTTP requests the script can issue.  Each constructor records the
request body fields the script puts in it.  Endpoint paths (relative to the
configurable `BASE_PATH` prefix, which is applied uniformly to every
request) are recovered by `Req.endpoint`.  In `calculate`, each selection
is a `fish_id` with the constant weight `100` (the source writes the float
literal `100.0`; its value is never inspected). -/
inductive Req where
  | register (username password role : String) : Req
  | login (username password : String) : Req
  | createNutrient (name unit : String) : Req
  | createFish (name : String) (nutrients : List (String × String)) : Req
  | createFeed (name price : String) (nutrients : List (String × String)) : Req
  | calculate (fish_selections : List (Int × Int)) : Req
  | listNutrients : Req
  | listFish : Req
  | listFeeds : Req
  | apiRoot : Req
deriving DecidableEq, Repr

/-- The path each request is sent to, relative to `BASE_PATH`. -/
def Req.endpoint : Req → String
  | Req.register _ _ _ => "api/auth/register/"
  | Req.login _ _ => "api/auth/login/"
  | Req.createNutrient _ _ => "api/nutrients/"
  | Req.createFish _ _ => "api/fish/"
  | Req.createFeed _ _ _ => "api/feeds/"
  | Req.calculate _ => "api/calculate/"
  | Req.listNutrients => "api/nutrients/"
  | Req.listFish => "api/fish/"
  | Req.listFeeds => "api/feeds/"
  | Req.apiRoot => "api/"

/-- Whether the request is a POST (the script's other requests are GETs). -/
def Req.isPost : Req → Bool
  | Req.register _ _ _ => true
  | Req.login _ _ => true
  | Req.createNutrient _ _ => true
  | Req.createFish _ _ => true
  | Req.createFeed _ _ _ => true
  | Req.calculate _ => true
  | Req.listNutrients => false
  | Req.listFish => false
  | Req.listFeeds => false
  | Req.apiRoot => false

/-- A POST to one of the three resource-creation endpoints
`api/nutrients/`, `api/fish/`, `api/feeds/`. -/
def isCreationPost (r : Req) : Bool :=
  r.isPost && (r.endpoint == "api/nutrients/" || r.endpoint == "api/fish/"
    || r.endpoint == "api/feeds/")

/-- A POST to `api/auth/login/`. -/
def isLoginReq (r : Req) : Bool :=
  match r with
  | Req.login _ _ => true
  | _ => false

/-- A POST to `api/fish/`. -/
def isFishPost (r : Req) : Bool :=
  match r with
  | Req.createFish _ _ => true
  | _ => false

/-- A POST to `api/feeds/`. -/
def isFeedPost (r : Req) : Bool :=
  match r with
  | Req.createFeed _ _ _ => true
  | _ => false

/-- The environment-variable configuration read at module import.
`none` means the variable is unset, so `os.getenv` returns the default.
(`LOCUST_BASE_PATH` only prefixes every URL uniformly and
`LOCUST_WAIT_MIN`/`LOCUST_WAIT_MAX` only configure pacing owned by the
harness; neither affects which requests are issued, so they are omitted.) -/
structure Env where
  passwordVar : Option String
  createResourcesVar : Option String
deriving DecidableEq, Repr

/-- `PASSWORD = os.getenv('LOCUST_PASSWORD', 'locustpass')`. -/
def PASSWORD (env : Env) : String :=
  env.passwordVar.getD "locustpass"

/-- `CREATE_RESOURCES = os.getenv('CREATE_RESOURCES', '1') == '1'`. -/
def CREATE_RESOURCES (env : Env) : Bool :=
  env.createResourcesVar.getD "1" == "1"

/-- `rand_username`: the prefix joined to the first 8 hex digits of a fresh
UUID.  The random hex digits are passed in as a parameter. -/
def rand_username (pfx : String) (hex8 : String) : String :=
  pfx ++ "_" ++ hex8

/-- The per-session attributes of one simulated `OptikormUser`, plus the
`Authorization` entry of its HTTP client's default headers (the only header
the script manipulates). -/
structure UserState where
  token : PyVal
  nutrient_id : PyVal
  fish_id : PyVal
  feed_id : PyVal
  authHeader : Option String
deriving DecidableEq, Repr

/-- The server's responses to the (at most five) requests `on_start` can
issue, in program order. -/
structure StartResponses where
  register : Resp
  login : Resp
  nutrient : Resp
  fish : Resp
  feed : Resp
deriving DecidableEq, Repr

/-- Result of running `on_start` (or one creation step of it): the requests
issued, the session state, and whether an uncaught exception escaped
(`raised = true` aborts the rest of `on_start`). -/
structure StartResult where
  trace : List Req
  state : UserState
  raised : Bool
deriving DecidableEq, Repr

/-- The token value stored by the registration block (lines 50-59):
on 200/201 it is `resp.json().get('token')`, with a JSON-parsing failure
caught and logged (token set to `None`); on any other status the token is
set to `None`. -/
def registerToken (resp : Resp) : PyVal :=
  if resp.status_code = 200 ∨ resp.status_code = 201 then
    match resp.body with
    | some kv => jsonGet kv "token"
    | Option.none => PyVal.none
  else PyVal.none

/-- The token value after the login attempt (lines 63-69): only on a 200
status is `resp.json().get('token')` stored (parse failures caught, token
set to `None`); on any other status the token keeps its previous value. -/
def loginToken (prev : PyVal) (resp : Resp) : PyVal :=
  if resp.status_code = 200 then
    match resp.body with
    | some kv => jsonGet kv "token"
    | Option.none => PyVal.none
  else prev

/-- One resource-creation response handled as in lines 84-85 / 91-92 /
98-99: on 200/201 the id field of the parsed body is assigned — but
`r.json()` there is NOT wrapped in try/except, so an unparseable body
raises (`Except.error`); on any other status the attribute keeps its
previous value. -/
def idUpdate (resp : Resp) (prev : PyVal) : Except Unit PyVal :=
  if resp.status_code = 200 ∨ resp.status_code = 201 then
    match resp.body with
    | some kv => Except.ok (jsonGet kv "id")
    | Option.none => Except.error ()
  else Except.ok prev

/-- Lines 94-99: create the feed, guarded by `if self.nutrient_id:`. -/
def feedStep (feedHex : String) (feedResp : Resp) (st : UserState) :
    StartResult :=
  if pyTruthy st.nutrient_id then
    let req := Req.createFeed ("Feed_" ++ feedHex) "10.0"
      [(pyStr st.nutrient_id, "50.0")]
    match idUpdate feedResp st.feed_id with
    | Except.error _ => ⟨[req], st, true⟩
    | Except.ok v => ⟨[req], { st with feed_id := v }, false⟩
  else ⟨[], st, false⟩

/-- Lines 87-99: create the fish, guarded by `if self.nutrient_id:`, then
fall through to the feed step.  An uncaught `r2.json()` exception aborts
before the feed step. -/
def fishStep (fishHex feedHex : String) (fishResp feedResp : Resp)
    (st : UserState) : StartResult :=
  if pyTruthy st.nutrient_id then
    let req := Req.createFish ("Fish_" ++ fishHex)
      [(pyStr st.nutrient_id, "50.0")]
    match idUpdate fishResp st.fish_id with
    | Except.error _ => ⟨[req], st, true⟩
    | Except.ok v =>
      let rest := feedStep feedHex feedResp { st with fish_id := v }
      ⟨req :: rest.trace, rest.state, rest.raised⟩
  else
    let rest := feedStep feedHex feedResp st
    ⟨rest.trace, rest.state, rest.raised⟩

/-- Lines 81-99: the whole `if CREATE_RESOURCES:` block — create the
nutrient, then the fish and feed steps.  An uncaught `r.json()` exception
aborts the block. -/
def createResourceBlock (fishHex feedHex : String)
    (nResp fResp gResp : Resp) (st : UserState) : StartResult :=
  let req := Req.createNutrient "Protein" "g/kg"
  match idUpdate nResp st.nutrient_id with
  | Except.error _ => ⟨[req], st, true⟩
  | Except.ok v =>
    let rest := fishStep fishHex feedHex fResp gResp
      { st with nutrient_id := v }
    ⟨req :: rest.trace, rest.state, rest.raised⟩

/-- `OptikormUser.on_start` (lines 38-99).  Parameters: the environment
configuration, the three random hex strings drawn from UUIDs (username
suffix, fish-name suffix, feed-name suffix), the server's responses, and
the pre-existing `Authorization` default header of the fresh client (popped
or overwritten before any state is returned, hence unused on every path). -/
def on_start (env : Env) (hex8 fishHex feedHex : String)
    (rs : StartResponses) (_initAuth : Option String) : StartResult :=
  let username := rand_username "locust_admin" hex8
  let t0 := registerToken rs.register
  let t1 := if pyTruthy t0 then t0 else loginToken t0 rs.login
  let trace1 :=
    if pyTruthy t0 then [Req.register username (PASSWORD env) "admin"]
    else [Req.register username (PASSWORD env) "admin",
          Req.login username (PASSWORD env)]
  if pyTruthy t1 then
    let st : UserState :=
      { token := t1, nutrient_id := PyVal.none, fish_id := PyVal.none,
        feed_id := PyVal.none,
        authHeader := some ("Token " ++ pyStr t1) }
    if CREATE_RESOURCES env then
      let rest := createResourceBlock fishHex feedHex
        rs.nutrient rs.fish rs.feed st
      ⟨trace1 ++ rest.trace, rest.state, rest.raised⟩
    else ⟨trace1, st, false⟩
  else
    ⟨trace1,
     { token := t1, nutrient_id := PyVal.none, fish_id := PyVal.none,
       feed_id := PyVal.none, authHeader := Option.none }, false⟩

/-- Result of one task execution: the requests issued, the session state
afterwards, and whether an exception escaped the task method. -/
structure TaskResult where
  trace : List Req
  state : UserState
  raised : Bool
deriving DecidableEq, Repr

/-- `OptikormUser.list_resources` (lines 101-106): three GETs. -/
def list_resources (st : UserState) : TaskResult :=
  ⟨[Req.listNutrients, Req.listFish, Req.listFeeds], st, false⟩

/-- `OptikormUser.calculate` (lines 108-116): with a truthy fish id, POST a
one-element selection for `int(self.fish_id)` with weight 100.0; the `int`
conversion happens while building the payload, so if it raises no request
is issued.  Otherwise POST the degenerate empty selection. -/
def calculate (st : UserState) : TaskResult :=
  if pyTruthy st.fish_id then
    match pyInt st.fish_id with
    | some n => ⟨[Req.calculate [(n, 100)]], st, false⟩
    | Option.none => ⟨[], st, true⟩
  else
    ⟨[Req.calculate []], st, false⟩

/-- `OptikormUser.ping_api_root` (lines 118-120): one GET of `api/`. -/
def ping_api_root (st : UserState) : TaskResult :=
  ⟨[Req.apiRoot], st, false⟩

/-- The three `@task`-decorated methods the harness' weighted picker (3:2:1)
chooses among. -/
inductive TaskKind where
  | listResources : TaskKind
  | calcTask : TaskKind
  | pingApiRoot : TaskKind
deriving DecidableEq, Repr

/-- Dispatch one task. -/
def runTask : TaskKind → UserState → TaskResult
  | TaskKind.listResources, st => list_resources st
  | TaskKind.calcTask, st => calculate st
  | TaskKind.pingApiRoot, st => ping_api_root st

/-- Run a sequence of tasks (the harness catches a task's exception and
keeps the user alive, so the sequence continues regardless of `raised`),
returning the final state and the concatenated request trace. -/
def runTasks : List TaskKind → UserState → UserState × List Req
  | [], st => (st, [])
  | t :: ts, st =>
    let r := runTask t st
    let rest := runTasks ts r.state
    (rest.1, r.trace ++ rest.2)

/-- The token value held in `self.token` once the register/login sequence of
`on_start` is over (it is never reassigned afterwards). -/
def startToken (rs : StartResponses) : PyVal :=
  if pyTruthy (registerToken rs.register) then registerToken rs.register
  else loginToken (registerToken rs.register) rs.login

/-- The value of `self.nutrient_id` after the nutrient-creation call, when
it starts out as `None` and the call does not raise. -/
def nutrientAfter (n : Resp) : PyVal :=
  match idUpdate n PyVal.none with
  | Except.ok v => v
  | Except.error _ => PyVal.none

lemma idUpdate_ok_of_wf (r : Resp) (prev : PyVal) (h : RespWF r) :
    ∃ v, idUpdate r prev = Except.ok v := by
  by_cases h2 : r.status_code = 200 ∨ r.status_code = 201
  · have hb := h h2
    cases hbody : r.body with
    | none => exact absurd hbody hb
    | some kv => exact ⟨jsonGet kv "id", by simp [idUpdate, h2, hbody]⟩
  · exact ⟨prev, by simp [idUpdate, h2]⟩

lemma feedStep_token (gh : String) (g : Resp) (st : UserState) :
    (feedStep gh g st).state.token = st.token := by
  by_cases h : pyTruthy st.nutrient_id <;>
    cases hu : idUpdate g st.feed_id <;> simp [feedStep, h, hu]

lemma feedStep_nutrient (gh : String) (g : Resp) (st : UserState) :
    (feedStep gh g st).state.nutrient_id = st.nutrient_id := by
  by_cases h : pyTruthy st.nutrient_id <;>
    cases hu : idUpdate g st.feed_id <;> simp [feedStep, h, hu]

lemma feedStep_fish (gh : String) (g : Resp) (st : UserState) :
    (feedStep gh g st).state.fish_id = st.fish_id := by
  by_cases h : pyTruthy st.nutrient_id <;>
    cases hu : idUpdate g st.feed_id <;> simp [feedStep, h, hu]

lemma feedStep_auth (gh : String) (g : Resp) (st : UserState) :
    (feedStep gh g st).state.authHeader = st.authHeader := by
  by_cases h : pyTruthy st.nutrient_id <;>
    cases hu : idUpdate g st.feed_id <;> simp [feedStep, h, hu]

lemma fishStep_token (fh gh : String) (f g : Resp) (st : UserState) :
    (fishStep fh gh f g st).state.token = st.token := by
  by_cases h : pyTruthy st.nutrient_id <;>
    cases hu : idUpdate f st.fish_id <;>
      simp [fishStep, h, hu, feedStep_token]

lemma fishStep_nutrient (fh gh : String) (f g : Resp) (st : UserState) :
    (fishStep fh gh f g st).state.nutrient_id = st.nutrient_id := by
  by_cases h : pyTruthy st.nutrient_id <;>
    cases hu : idUpdate f st.fish_id <;>
      simp [fishStep, h, hu, feedStep_nutrient]

lemma fishStep_auth (fh gh : String) (f g : Resp) (st : UserState) :
    (fishStep fh gh f g st).state.authHeader = st.authHeader := by
  by_cases h : pyTruthy st.nutrient_id <;>
    cases hu : idUpdate f st.fish_id <;>
      simp [fishStep, h, hu, feedStep_auth]

lemma createResourceBlock_token (fh gh : String) (n f g : Resp)
    (st : UserState) :
    (createResourceBlock fh gh n f g st).state.token = st.token := by
  cases hu : idUpdate n st.nutrient_id <;>
    simp [createResourceBlock, hu, fishStep_token]

lemma createResourceBlock_auth (fh gh : String) (n f g : Resp)
    (st : UserState) :
    (createResourceBlock fh gh n f g st).state.authHeader = st.authHeader := by
  cases hu : idUpdate n st.nutrient_id <;>
    simp [createResourceBlock, hu, fishStep_auth]

lemma createResourceBlock_nid (fh gh : String) (n f g : Resp)
    (st : UserState) (h : st.nutrient_id = PyVal.none) :
    (createResourceBlock fh gh n f g st).state.nutrient_id
      = nutrientAfter n := by
  simp only [createResourceBlock, h]
  cases hu : idUpdate n PyVal.none with
  | error e => simp [hu, nutrientAfter, h]
  | ok v => simp [hu, nutrientAfter, fishStep_nutrient]

lemma feedStep_trace (gh : String) (g : Resp) (st : UserState) :
    (feedStep gh g st).trace
      = if pyTruthy st.nutrient_id then
          [Req.createFeed ("Feed_" ++ gh) "10.0" [(pyStr st.nutrient_id, "50.0")]]
        else [] := by
  by_cases h : pyTruthy st.nutrient_id <;>
    cases hu : idUpdate g st.feed_id <;> simp [feedStep, h, hu]

lemma fishStep_any_fish (fh gh : String) (f g : Resp) (st : UserState) :
    (fishStep fh gh f g st).trace.any isFishPost = pyTruthy st.nutrient_id := by
  by_cases h : pyTruthy st.nutrient_id
  · cases hu : idUpdate f st.fish_id <;> simp [fishStep, h, hu, isFishPost]
  · simp [fishStep, h, feedStep_trace]

lemma fishStep_any_feed (fh gh : String) (f g : Resp) (st : UserState)
    (hf : RespWF f) :
    (fishStep fh gh f g st).trace.any isFeedPost = pyTruthy st.nutrient_id := by
  by_cases h : pyTruthy st.nutrient_id
  · obtain ⟨v, hv⟩ := idUpdate_ok_of_wf f st.fish_id hf
    simp [fishStep, h, hv, feedStep_trace, isFeedPost]
  · simp [fishStep, h, feedStep_trace]

lemma fishStep_feed_imp (fh gh : String) (f g : Resp) (st : UserState)
    (h : (fishStep fh gh f g st).trace.any isFeedPost = true) :
    pyTruthy st.nutrient_id = true := by
  by_cases hn : pyTruthy st.nutrient_id
  · exact hn
  · simp [fishStep, hn, feedStep_trace] at h

lemma createResourceBlock_any_fish (fh gh : String) (n f g : Resp)
    (st : UserState) (h : st.nutrient_id = PyVal.none) :
    (createResourceBlock fh gh n f g st).trace.any isFishPost
      = pyTruthy (nutrientAfter n) := by
  simp only [createResourceBlock, h]
  cases hu : idUpdate n PyVal.none with
  | error e => simp [hu, nutrientAfter, isFishPost, pyTruthy]
  | ok v => simp [hu, nutrientAfter, fishStep_any_fish, isFishPost]

lemma createResourceBlock_any_feed (fh gh : String) (n f g : Resp)
    (st : UserState) (h : st.nutrient_id = PyVal.none) (hf : RespWF f) :
    (createResourceBlock fh gh n f g st).trace.any isFeedPost
      = pyTruthy (nutrientAfter n) := by
  simp only [createResourceBlock, h]
  cases hu : idUpdate n PyVal.none with
  | error e => simp [hu, nutrientAfter, isFeedPost, pyTruthy]
  | ok v => simp [hu, nutrientAfter, fishStep_any_feed _ _ _ _ _ hf, isFeedPost]

lemma createResourceBlock_feed_imp (fh gh : String) (n f g : Resp)
    (st : UserState) (h : st.nutrient_id = PyVal.none)
    (hfeed : (createResourceBlock fh gh n f g st).trace.any isFeedPost = true) :
    pyTruthy (nutrientAfter n) = true := by
  simp only [createResourceBlock, h] at hfeed
  cases hu : idUpdate n PyVal.none with
  | error e => rw [hu] at hfeed; simp [isFeedPost] at hfeed
  | ok v =>
    rw [hu] at hfeed
    simp [isFeedPost] at hfeed
    have := fishStep_feed_imp fh gh f g
      { st with nutrient_id := v } (by simpa [isFeedPost] using hfeed)
    simpa [nutrientAfter, hu] using this

lemma creation_not_login (r : Req) (h : isCreationPost r = true) :
    isLoginReq r = false := by
  cases r <;> simp_all [isCreationPost, isLoginReq, Req.isPost, Req.endpoint]

lemma feedStep_mem_creation (gh : String) (g : Resp) (st : UserState) :
    ∀ r ∈ (feedStep gh g st).trace, isCreationPost r = true := by
  intro r hr
  rw [feedStep_trace] at hr
  by_cases h : pyTruthy st.nutrient_id
  · rw [if_pos h] at hr
    simp at hr
    subst hr
    rfl
  · rw [if_neg h] at hr
    simp at hr

lemma fishStep_mem_creation (fh gh : String) (f g : Resp) (st : UserState) :
    ∀ r ∈ (fishStep fh gh f g st).trace, isCreationPost r = true := by
  intro r hr
  by_cases h : pyTruthy st.nutrient_id
  · cases hu : idUpdate f st.fish_id with
    | error e =>
      simp [fishStep, h, hu] at hr
      subst hr
      rfl
    | ok v =>
      simp [fishStep, h, hu] at hr
      rcases hr with hr | hr
      · subst hr; rfl
      · exact feedStep_mem_creation gh g _ r hr
  · simp [fishStep, h] at hr
    exact feedStep_mem_creation gh g st r hr

lemma createResourceBlock_mem_creation (fh gh : String) (n f g : Resp)
    (st : UserState) :
    ∀ r ∈ (createResourceBlock fh gh n f g st).trace,
      isCreationPost r = true := by
  intro r hr
  cases hu : idUpdate n st.nutrient_id with
  | error e =>
    simp [createResourceBlock, hu] at hr
    subst hr
    rfl
  | ok v =>
    simp [createResourceBlock, hu] at hr
    rcases hr with hr | hr
    · subst hr; rfl
    · exact fishStep_mem_creation fh gh f g _ r hr

lemma on_start_token (env : Env) (h8 fh gh : String) (rs : StartResponses)
    (ia : Option String) :
    (on_start env h8 fh gh rs ia).state.token = startToken rs := by
  by_cases h0 : pyTruthy (registerToken rs.register)
  · by_cases hc : CREATE_RESOURCES env <;>
      simp [on_start, startToken, h0, hc, createResourceBlock_token]
  · by_cases h1 : pyTruthy (loginToken (registerToken rs.register) rs.login)
    · by_cases hc : CREATE_RESOURCES env <;>
        simp [on_start, startToken, h0, h1, hc, createResourceBlock_token]
    · simp [on_start, startToken, h0, h1]

lemma on_start_auth (env : Env) (h8 fh gh : String) (rs : StartResponses)
    (ia : Option String) :
    (on_start env h8 fh gh rs ia).state.authHeader
      = if pyTruthy (startToken rs)
        then some ("Token " ++ pyStr (startToken rs)) else Option.none := by
  by_cases h0 : pyTruthy (registerToken rs.register)
  · by_cases hc : CREATE_RESOURCES env <;>
      simp [on_start, startToken, h0, hc, createResourceBlock_auth]
  · by_cases h1 : pyTruthy (loginToken (registerToken rs.register) rs.login)
    · by_cases hc : CREATE_RESOURCES env <;>
        simp [on_start, startToken, h0, h1, hc, createResourceBlock_auth]
    · simp [on_start, startToken, h0, h1]

lemma on_start_nid (env : Env) (h8 fh gh : String) (rs : StartResponses)
    (ia : Option String) :
    (on_start env h8 fh gh rs ia).state.nutrient_id
      = if pyTruthy (startToken rs) && CREATE_RESOURCES env
        then nutrientAfter rs.nutrient else PyVal.none := by
  by_cases h0 : pyTruthy (registerToken rs.register)
  · by_cases hc : CREATE_RESOURCES env <;>
      simp [on_start, startToken, h0, hc, createResourceBlock_nid]
  · by_cases h1 : pyTruthy (loginToken (registerToken rs.register) rs.login)
    · by_cases hc : CREATE_RESOURCES env <;>
        simp [on_start, startToken, h0, h1, hc, createResourceBlock_nid]
    · simp [on_start, startToken, h0, h1]

lemma on_start_trace_eq (env : Env) (h8 fh gh : String) (rs : StartResponses)
    (ia : Option String) :
    (on_start env h8 fh gh rs ia).trace
      = (if pyTruthy (registerToken rs.register)
         then [Req.register (rand_username "locust_admin" h8) (PASSWORD env)
                 "admin"]
         else [Req.register (rand_username "locust_admin" h8) (PASSWORD env)
                 "admin",
               Req.login (rand_username "locust_admin" h8) (PASSWORD env)])
        ++ (if pyTruthy (startToken rs) && CREATE_RESOURCES env
            then (createResourceBlock fh gh rs.nutrient rs.fish rs.feed
                  { token := startToken rs, nutrient_id := PyVal.none,
                    fish_id := PyVal.none, feed_id := PyVal.none,
                    authHeader := some ("Token " ++ pyStr (startToken rs))
                  }).trace
            else []) := by
  by_cases h0 : pyTruthy (registerToken rs.register)
  · by_cases hc : CREATE_RESOURCES env <;>
      simp [on_start, startToken, h0, hc]
  · by_cases h1 : pyTruthy (loginToken (registerToken rs.register) rs.login)
    · by_cases hc : CREATE_RESOURCES env <;>
        simp [on_start, startToken, h0, h1, hc]
    · simp [on_start, startToken, h0, h1]

lemma on_start_any_fish (env : Env) (h8 fh gh : String) (rs : StartResponses)
    (ia : Option String) :
    (on_start env h8 fh gh rs ia).trace.any isFishPost
      = ((pyTruthy (startToken rs) && CREATE_RESOURCES env)
          && pyTruthy (nutrientAfter rs.nutrient)) := by
  rw [on_start_trace_eq, List.any_append]
  have h1 : (if pyTruthy (registerToken rs.register)
      then [Req.register (rand_username "locust_admin" h8) (PASSWORD env)
              "admin"]
      else [Req.register (rand_username "locust_admin" h8) (PASSWORD env)
              "admin",
            Req.login (rand_username "locust_admin" h8)
              (PASSWORD env)]).any isFishPost = false := by
    by_cases h0 : pyTruthy (registerToken rs.register) <;>
      simp [h0, isFishPost]
  rw [h1, Bool.false_or]
  by_cases hx : pyTruthy (startToken rs) && CREATE_RESOURCES env
  · rw [if_pos hx, createResourceBlock_any_fish _ _ _ _ _ _ rfl, hx,
      Bool.true_and]
  · rw [if_neg hx]
    rw [Bool.not_eq_true] at hx
    simp [hx]

lemma on_start_any_feed (env : Env) (h8 fh gh : String) (rs : StartResponses)
    (ia : Option String) (hf : RespWF rs.fish) :
    (on_start env h8 fh gh rs ia).trace.any isFeedPost
      = ((pyTruthy (startToken rs) && CREATE_RESOURCES env)
          && pyTruthy (nutrientAfter rs.nutrient)) := by
  rw [on_start_trace_eq, List.any_append]
  have h1 : (if pyTruthy (registerToken rs.register)
      then [Req.register (rand_username "locust_admin" h8) (PASSWORD env)
              "admin"]
      else [Req.register (rand_username "locust_admin" h8) (PASSWORD env)
              "admin",
            Req.login (rand_username "locust_admin" h8)
              (PASSWORD env)]).any isFeedPost = false := by
    by_cases h0 : pyTruthy (registerToken rs.register) <;>
      simp [h0, isFeedPost]
  rw [h1, Bool.false_or]
  by_cases hx : pyTruthy (startToken rs) && CREATE_RESOURCES env
  · rw [if_pos hx, createResourceBlock_any_feed _ _ _ _ _ _ rfl hf, hx,
      Bool.true_and]
  · rw [if_neg hx]
    rw [Bool.not_eq_true] at hx
    simp [hx]

lemma on_start_feed_imp (env : Env) (h8 fh gh : String) (rs : StartResponses)
    (ia : Option String)
    (h : (on_start env h8 fh gh rs ia).trace.any isFeedPost = true) :
    ((pyTruthy (startToken rs) && CREATE_RESOURCES env)
        && pyTruthy (nutrientAfter rs.nutrient)) = true := by
  rw [on_start_trace_eq, List.any_append] at h
  have h1 : (if pyTruthy (registerToken rs.register)
      then [Req.register (rand_username "locust_admin" h8) (PASSWORD env)
              "admin"]
      else [Req.register (rand_username "locust_admin" h8) (PASSWORD env)
              "admin",
            Req.login (rand_username "locust_admin" h8)
              (PASSWORD env)]).any isFeedPost = false := by
    by_cases h0 : pyTruthy (registerToken rs.register) <;>
      simp [h0, isFeedPost]
  rw [h1, Bool.false_or] at h
  by_cases hx : pyTruthy (startToken rs) && CREATE_RESOURCES env
  · rw [if_pos hx] at h
    rw [hx, Bool.true_and]
    exact createResourceBlock_feed_imp _ _ _ _ _ _ rfl h
  · rw [if_neg hx] at h
    simp at h

lemma idUpdate_shape (r : Resp) (prev v : PyVal)
    (h : idUpdate r prev = Except.ok v) :
    v = prev ∨ ∃ kv, r.body = some kv ∧ v = jsonGet kv "id" := by
  by_cases h2 : r.status_code = 200 ∨ r.status_code = 201
  · cases hb : r.body with
    | none => simp [idUpdate, h2, hb] at h
    | some kv =>
      simp [idUpdate, h2, hb] at h
      exact Or.inr ⟨kv, rfl, h.symm⟩
  · simp [idUpdate, h2] at h
    exact Or.inl h.symm

lemma fishStep_fish_shape (fh gh : String) (f g : Resp) (st : UserState) :
    (fishStep fh gh f g st).state.fish_id = st.fish_id
    ∨ ∃ kv, f.body = some kv
        ∧ (fishStep fh gh f g st).state.fish_id = jsonGet kv "id" := by
  by_cases h : pyTruthy st.nutrient_id
  · cases hv : idUpdate f st.fish_id with
    | error e => left; simp [fishStep, h, hv]
    | ok v =>
      have hval : (fishStep fh gh f g st).state.fish_id = v := by
        simp [fishStep, h, hv, feedStep_fish]
      rcases idUpdate_shape f st.fish_id v hv with h1 | ⟨kv, hkv, h2⟩
      · exact Or.inl (hval.trans h1)
      · exact Or.inr ⟨kv, hkv, hval.trans h2⟩
  · left; simp [fishStep, h, feedStep_fish]

lemma createResourceBlock_fish_shape (fh gh : String) (n f g : Resp)
    (st : UserState) :
    (createResourceBlock fh gh n f g st).state.fish_id = st.fish_id
    ∨ ∃ kv, f.body = some kv
        ∧ (createResourceBlock fh gh n f g st).state.fish_id
            = jsonGet kv "id" := by
  cases hv : idUpdate n st.nutrient_id with
  | error e => left; simp [createResourceBlock, hv]
  | ok v =>
    have := fishStep_fish_shape fh gh f g { st with nutrient_id := v }
    simpa [createResourceBlock, hv] using this

lemma on_start_fish_shape (env : Env) (h8 fh gh : String)
    (rs : StartResponses) (ia : Option String) :
    (on_start env h8 fh gh rs ia).state.fish_id = PyVal.none
    ∨ ∃ kv, rs.fish.body = some kv
        ∧ (on_start env h8 fh gh rs ia).state.fish_id = jsonGet kv "id" := by
  by_cases h0 : pyTruthy (registerToken rs.register)
  · by_cases hc : CREATE_RESOURCES env
    · simp only [on_start]
      simp [h0, hc]
      exact createResourceBlock_fish_shape fh gh rs.nutrient rs.fish rs.feed _
    · left; simp [on_start, h0, hc]
  · by_cases h1 : pyTruthy (loginToken (registerToken rs.register) rs.login)
    · by_cases hc : CREATE_RESOURCES env
      · simp only [on_start]
        simp [h0, h1, hc]
        exact createResourceBlock_fish_shape fh gh rs.nutrient rs.fish
          rs.feed _
      · left; simp [on_start, h0, h1, hc]
    · left; simp [on_start, h0, h1]

lemma feedStep_raised (gh : String) (g : Resp) (st : UserState)
    (hg : RespWF g) : (feedStep gh g st).raised = false := by
  by_cases h : pyTruthy st.nutrient_id
  · obtain ⟨v, hv⟩ := idUpdate_ok_of_wf g st.feed_id hg
    simp [feedStep, h, hv]
  · simp [feedStep, h]

lemma fishStep_raised (fh gh : String) (f g : Resp) (st : UserState)
    (hf : RespWF f) (hg : RespWF g) : (fishStep fh gh f g st).raised = false := by
  by_cases h : pyTruthy st.nutrient_id
  · obtain ⟨v, hv⟩ := idUpdate_ok_of_wf f st.fish_id hf
    simp [fishStep, h, hv]
    exact feedStep_raised gh g _ hg
  · simp [fishStep, h]
    exact feedStep_raised gh g st hg

lemma createResourceBlock_raised (fh gh : String) (n f g : Resp)
    (st : UserState) (hn : RespWF n) (hf : RespWF f) (hg : RespWF g) :
    (createResourceBlock fh gh n f g st).raised = false := by
  obtain ⟨v, hv⟩ := idUpdate_ok_of_wf n st.nutrient_id hn
  simp [createResourceBlock, hv]
  exact fishStep_raised fh gh f g _ hf hg

lemma on_start_raised (env : Env) (h8 fh gh : String) (rs : StartResponses)
    (ia : Option String) (hn : RespWF rs.nutrient) (hf : RespWF rs.fish)
    (hg : RespWF rs.feed) : (on_start env h8 fh gh rs ia).raised = false := by
  by_cases h0 : pyTruthy (registerToken rs.register)
  · by_cases hc : CREATE_RESOURCES env
    · simp [on_start, h0, hc]
      exact createResourceBlock_raised _ _ _ _ _ _ hn hf hg
    · simp [on_start, h0, hc]
  · by_cases h1 : pyTruthy (loginToken (registerToken rs.register) rs.login)
    · by_cases hc : CREATE_RESOURCES env
      · simp [on_start, h0, h1, hc]
        exact createResourceBlock_raised _ _ _ _ _ _ hn hf hg
      · simp [on_start, h0, h1, hc]
    · simp [on_start, h0, h1]

lemma calculate_raised_of_shape (st : UserState)
    (h : st.fish_id = PyVal.none ∨ ∃ n : Int, st.fish_id = PyVal.int n) :
    (calculate st).raised = false := by
  rcases h with h | ⟨n, h⟩
  · simp [calculate, h, pyTruthy]
  · by_cases hn : n = 0 <;> simp [calculate, h, pyTruthy, pyInt, hn]

lemma runTask_state (t : TaskKind) (st : UserState) :
    (runTask t st).state = st := by
  cases t with
  | listResources => rfl
  | calcTask =>
    by_cases h : pyTruthy st.fish_id
    · cases hi : pyInt st.fish_id <;> simp [runTask, calculate, h, hi]
    · simp [runTask, calculate, h]
  | pingApiRoot => rfl

lemma runTasks_state (ts : List TaskKind) (st : UserState) :
    (runTasks ts st).1 = st := by
  induction ts generalizing st with
  | nil => rfl
  | cons t ts ih => simp [runTasks, runTask_state, ih]

lemma isCreationPost_register (u p ro : String) :
    isCreationPost (Req.register u p ro) = false := rfl

lemma isCreationPost_login (u p : String) :
    isCreationPost (Req.login u p) = false := rfl

/-- C1: for every simulated `OptikormUser` session, if the registration POST
to `api/auth/register/` yields no token (in particular whenever its response
status is non-2xx), exactly one login POST to `api/auth/login/` is made with
the same username and password; if registration yields a token, no login
attempt is made. -/
theorem register_fallback_exactly_one_login (env : Env) (h8 fh gh : String)
    (rs : StartResponses) (ia : Option String) :
    ((on_start env h8 fh gh rs ia).trace.filter isLoginReq
       = if pyTruthy (registerToken rs.register) then []
         else [Req.login (rand_username "locust_admin" h8) (PASSWORD env)])
    ∧ (on_start env h8 fh gh rs ia).trace.head?
        = some (Req.register (rand_username "locust_admin" h8) (PASSWORD env)
            "admin")
    ∧ (¬(rs.register.status_code = 200 ∨ rs.register.status_code = 201) →
        pyTruthy (registerToken rs.register) = false) := by
  refine ⟨?_, ?_, ?_⟩
  · rw [on_start_trace_eq, List.filter_append]
    have hblock : ∀ st : UserState,
        (createResourceBlock fh gh rs.nutrient rs.fish rs.feed st).trace.filter
          isLoginReq = [] := fun st =>
      List.filter_eq_nil_iff.mpr fun r hr => by
        simp [creation_not_login r
          (createResourceBlock_mem_creation _ _ _ _ _ st r hr)]
    by_cases h0 : pyTruthy (registerToken rs.register) <;>
      by_cases hx : pyTruthy (startToken rs) && CREATE_RESOURCES env <;>
        simp [h0, hx, hblock, isLoginReq]
  · rw [on_start_trace_eq]
    by_cases h0 : pyTruthy (registerToken rs.register) <;> simp [h0]
  · intro h
    simp [registerToken, h, pyTruthy]

/-- C1 witness: with a 400 registration response, exactly one login request
with the same generated username and the default password is issued. -/
theorem register_fallback_exactly_one_login_witness :
    (¬((400 : Nat) = 200 ∨ (400 : Nat) = 201))
    ∧ pyTruthy (registerToken ⟨400, Option.none⟩) = false
    ∧ ((on_start ⟨Option.none, Option.none⟩ "ab" "cd" "ef"
         ⟨⟨400, Option.none⟩, ⟨200, some [("token", PyVal.str "tok")]⟩,
          ⟨400, Option.none⟩, ⟨400, Option.none⟩, ⟨400, Option.none⟩⟩
         Option.none).trace.filter isLoginReq
        = [Req.login "locust_admin_ab" "locustpass"]) := by
  refine ⟨by decide, ?_, ?_⟩
  · exact (register_fallback_exactly_one_login ⟨Option.none, Option.none⟩
      "ab" "cd" "ef"
      ⟨⟨400, Option.none⟩, ⟨200, some [("token", PyVal.str "tok")]⟩,
       ⟨400, Option.none⟩, ⟨400, Option.none⟩, ⟨400, Option.none⟩⟩
      Option.none).2.2 (by decide)
  · rw [(register_fallback_exactly_one_login ⟨Option.none, Option.none⟩
      "ab" "cd" "ef"
      ⟨⟨400, Option.none⟩, ⟨200, some [("token", PyVal.str "tok")]⟩,
       ⟨400, Option.none⟩, ⟨400, Option.none⟩, ⟨400, Option.none⟩⟩
      Option.none).1]
    decide

/-- C2: the `calculate` task POSTs to `api/calculate/` a non-empty
`fish_selections` array exactly when the session holds a (truthy) fish id,
and with no fish id the body is exactly the empty selection list.  The
hypothesis records that ids returned by the API are integers (or absent),
as the spec's data model states. -/
theorem calculate_selections_iff (st : UserState)
    (hid : st.fish_id = PyVal.none ∨ ∃ n : Int, st.fish_id = PyVal.int n) :
    ∃ sels : List (Int × Int),
      (calculate st).trace = [Req.calculate sels]
      ∧ (calculate st).raised = false
      ∧ (sels ≠ [] ↔ pyTruthy st.fish_id = true)
      ∧ (pyTruthy st.fish_id = false → sels = []) := by
  rcases hid with h | ⟨n, h⟩
  · exact ⟨[], by simp [calculate, h, pyTruthy], by simp [calculate, h, pyTruthy],
      by simp [h, pyTruthy], fun _ => rfl⟩
  · by_cases hn : n = 0
    · subst hn
      exact ⟨[], by simp [calculate, h, pyTruthy],
        by simp [calculate, h, pyTruthy], by simp [h, pyTruthy], fun _ => rfl⟩
    · refine ⟨[(n, 100)], ?_, ?_, ?_, ?_⟩ <;>
        simp [calculate, h, pyTruthy, pyInt, hn]

/-- C2 witness: a session whose startup obtained fish id 7 POSTs the
one-element selection; the instance is obtained from the theorem. -/
theorem calculate_selections_iff_witness :
    ∃ sels : List (Int × Int),
      (calculate
        { token := PyVal.str "tok", nutrient_id := PyVal.int 1,
          fish_id := PyVal.int 7, feed_id := PyVal.none,
          authHeader := some "Token tok" }).trace = [Req.calculate sels]
      ∧ (calculate
        { token := PyVal.str "tok", nutrient_id := PyVal.int 1,
          fish_id := PyVal.int 7, feed_id := PyVal.none,
          authHeader := some "Token tok" }).raised = false
      ∧ (sels ≠ [] ↔ pyTruthy (PyVal.int 7) = true)
      ∧ (pyTruthy (PyVal.int 7) = false → sels = []) :=
  calculate_selections_iff _ (Or.inr ⟨7, rfl⟩)

/-- C5: with the environment variable `CREATE_RESOURCES` set to the string
`0`, startup issues no POST to `api/nutrients/`, `api/fish/` or
`api/feeds/`, whatever the server answers. -/
theorem create_resources_zero_no_creation (pw : Option String)
    (h8 fh gh : String) (rs : StartResponses) (ia : Option String) :
    (on_start ⟨pw, some "0"⟩ h8 fh gh rs ia).trace.filter isCreationPost
      = [] := by
  rw [on_start_trace_eq, List.filter_append]
  have hc : CREATE_RESOURCES ⟨pw, some "0"⟩ = false := rfl
  rw [hc, Bool.and_false]
  by_cases h0 : pyTruthy (registerToken rs.register) <;>
    simp [h0, isCreationPost_register, isCreationPost_login]

/-- C8: the session attributes `token`, `nutrient_id`, `fish_id`, `feed_id`
are assigned only during `on_start`; no task method modifies the session
state, so any sequence of tasks observes exactly the state startup left. -/
theorem tasks_do_not_modify_session_state :
    (∀ (t : TaskKind) (st : UserState), (runTask t st).state = st)
    ∧ (∀ (ts : List TaskKind) (st : UserState),
        (runTasks ts st).1.token = st.token
        ∧ (runTasks ts st).1.nutrient_id = st.nutrient_id
        ∧ (runTasks ts st).1.fish_id = st.fish_id
        ∧ (runTasks ts st).1.feed_id = st.feed_id) :=
  ⟨runTask_state,
   fun ts st => by rw [runTasks_state]; exact ⟨rfl, rfl, rfl, rfl⟩⟩

/-- C9: a session that obtained no token returns from `on_start` before the
creation block, so no resource-creation POST is issued, regardless of the
`CREATE_RESOURCES` setting. -/
theorem no_token_no_creation_posts (env : Env) (h8 fh gh : String)
    (rs : StartResponses) (ia : Option String)
    (h : pyTruthy (on_start env h8 fh gh rs ia).state.token = false) :
    (on_start env h8 fh gh rs ia).trace.filter isCreationPost = [] := by
  have ht := on_start_token env h8 fh gh rs ia
  rw [ht] at h
  rw [on_start_trace_eq, List.filter_append, h, Bool.false_and]
  by_cases h0 : pyTruthy (registerToken rs.register) <;>
    simp [h0, isCreationPost_register, isCreationPost_login]

/-- C9 witness: with `CREATE_RESOURCES` enabled (default) but both auth
calls failing, no creation POST is issued. -/
theorem no_token_no_creation_posts_witness :
    CREATE_RESOURCES ⟨Option.none, Option.none⟩ = true
    ∧ pyTruthy (on_start ⟨Option.none, Option.none⟩ "ab" "cd" "ef"
        ⟨⟨400, Option.none⟩, ⟨403, Option.none⟩, ⟨201, Option.none⟩,
         ⟨201, Option.none⟩, ⟨201, Option.none⟩⟩
        Option.none).state.token = false
    ∧ (on_start ⟨Option.none, Option.none⟩ "ab" "cd" "ef"
        ⟨⟨400, Option.none⟩, ⟨403, Option.none⟩, ⟨201, Option.none⟩,
         ⟨201, Option.none⟩, ⟨201, Option.none⟩⟩
        Option.none).trace.filter isCreationPost = [] :=
  ⟨by decide, by decide,
   no_token_no_creation_posts ⟨Option.none, Option.none⟩ "ab" "cd" "ef"
     ⟨⟨400, Option.none⟩, ⟨403, Option.none⟩, ⟨201, Option.none⟩,
      ⟨201, Option.none⟩, ⟨201, Option.none⟩⟩
     Option.none (by decide)⟩

/-- C10: resource creation is enabled exactly when the `CREATE_RESOURCES`
environment variable is unset (defaulting to `1`) or equals the string `1`;
any other value, such as `true` or `yes`, disables it. -/
theorem create_resources_exactly_when_var_is_one :
    (∀ env : Env, CREATE_RESOURCES env = true ↔
       (env.createResourcesVar = Option.none
        ∨ env.createResourcesVar = some "1"))
    ∧ CREATE_RESOURCES ⟨Option.none, some "true"⟩ = false
    ∧ CREATE_RESOURCES ⟨Option.none, some "yes"⟩ = false
    ∧ CREATE_RESOURCES ⟨Option.none, Option.none⟩ = true := by
  refine ⟨?_, rfl, rfl, rfl⟩
  intro env
  cases h : env.createResourcesVar with
  | none => simp [CREATE_RESOURCES, h]
  | some s => simp [CREATE_RESOURCES, h]

/-- C3: during startup the fish-creation POST and the feed-creation POST
are each attempted only when the nutrient id is set, both are skipped when
it is absent, and whether the feed POST is attempted does not depend on the
fish-creation response (nor the fish POST on the feed response), provided
2xx responses carry parseable bodies. -/
theorem creation_gated_on_nutrient_and_independent (env : Env)
    (h8 fh gh : String) (rs : StartResponses) (ia : Option String) :
    ((on_start env h8 fh gh rs ia).trace.any isFishPost = true →
       pyTruthy (on_start env h8 fh gh rs ia).state.nutrient_id = true)
    ∧ ((on_start env h8 fh gh rs ia).trace.any isFeedPost = true →
       pyTruthy (on_start env h8 fh gh rs ia).state.nutrient_id = true)
    ∧ (pyTruthy (on_start env h8 fh gh rs ia).state.nutrient_id = false →
       (on_start env h8 fh gh rs ia).trace.any isFishPost = false
       ∧ (on_start env h8 fh gh rs ia).trace.any isFeedPost = false)
    ∧ (∀ f1 f2 : Resp, RespWF f1 → RespWF f2 →
        (on_start env h8 fh gh { rs with fish := f1 } ia).trace.any isFeedPost
          = (on_start env h8 fh gh { rs with fish := f2 } ia).trace.any
              isFeedPost)
    ∧ (∀ g1 g2 : Resp,
        (on_start env h8 fh gh { rs with feed := g1 } ia).trace.any isFishPost
          = (on_start env h8 fh gh { rs with feed := g2 } ia).trace.any
              isFishPost) := by
  refine ⟨?_, ?_, ?_, ?_, ?_⟩
  · intro h
    rw [on_start_any_fish, Bool.and_eq_true] at h
    obtain ⟨hac, ht⟩ := h
    rw [on_start_nid, if_pos hac]
    exact ht
  · intro h
    have h2 := on_start_feed_imp env h8 fh gh rs ia h
    rw [Bool.and_eq_true] at h2
    obtain ⟨hac, ht⟩ := h2
    rw [on_start_nid, if_pos hac]
    exact ht
  · intro h
    constructor
    · rw [on_start_any_fish]
      by_cases hac : pyTruthy (startToken rs) && CREATE_RESOURCES env
      · rw [on_start_nid, if_pos hac] at h
        simp [hac, h]
      · rw [Bool.not_eq_true] at hac
        simp [hac]
    · cases hfd : (on_start env h8 fh gh rs ia).trace.any isFeedPost with
      | false => rfl
      | true =>
        have h2 := on_start_feed_imp env h8 fh gh rs ia hfd
        rw [Bool.and_eq_true] at h2
        obtain ⟨hac, ht⟩ := h2
        rw [on_start_nid, if_pos hac] at h
        simp [h] at ht
  · intro f1 f2 hf1 hf2
    rw [on_start_any_feed env h8 fh gh { rs with fish := f1 } ia hf1,
      on_start_any_feed env h8 fh gh { rs with fish := f2 } ia hf2]
    rfl
  · intro g1 g2
    rw [on_start_any_fish, on_start_any_fish]
    rfl

/-- C3 witness: with a nutrient id obtained, the fish POST occurs, the
nutrient id is truthy, and the feed attempt is the same for two different
well-formed fish responses (a 201 with an id, and a 500). -/
theorem creation_gated_on_nutrient_and_independent_witness :
    ((on_start ⟨Option.none, Option.none⟩ "a" "b" "c"
        ⟨⟨200, some [("token", PyVal.str "t")]⟩, ⟨400, Option.none⟩,
         ⟨201, some [("id", PyVal.int 5)]⟩, ⟨201, some [("id", PyVal.int 9)]⟩,
         ⟨201, some [("id", PyVal.int 3)]⟩⟩
        Option.none).trace.any isFishPost = true)
    ∧ pyTruthy (on_start ⟨Option.none, Option.none⟩ "a" "b" "c"
        ⟨⟨200, some [("token", PyVal.str "t")]⟩, ⟨400, Option.none⟩,
         ⟨201, some [("id", PyVal.int 5)]⟩, ⟨201, some [("id", PyVal.int 9)]⟩,
         ⟨201, some [("id", PyVal.int 3)]⟩⟩
        Option.none).state.nutrient_id = true
    ∧ ((on_start ⟨Option.none, Option.none⟩ "a" "b" "c"
        ⟨⟨200, some [("token", PyVal.str "t")]⟩, ⟨400, Option.none⟩,
         ⟨201, some [("id", PyVal.int 5)]⟩, ⟨201, some [("id", PyVal.int 9)]⟩,
         ⟨201, some [("id", PyVal.int 3)]⟩⟩
        Option.none).trace.any isFeedPost
      = (on_start ⟨Option.none, Option.none⟩ "a" "b" "c"
        ⟨⟨200, some [("token", PyVal.str "t")]⟩, ⟨400, Option.none⟩,
         ⟨500, Option.none⟩, ⟨201, some [("id", PyVal.int 9)]⟩,
         ⟨201, some [("id", PyVal.int 3)]⟩⟩
        Option.none).trace.any isFeedPost → False) := by
  refine ⟨by decide, ?_, by decide⟩
  exact (creation_gated_on_nutrient_and_independent ⟨Option.none, Option.none⟩
    "a" "b" "c"
    ⟨⟨200, some [("token", PyVal.str "t")]⟩, ⟨400, Option.none⟩,
     ⟨201, some [("id", PyVal.int 5)]⟩, ⟨201, some [("id", PyVal.int 9)]⟩,
     ⟨201, some [("id", PyVal.int 3)]⟩⟩
    Option.none).1 (by decide)

/-- C4: when neither registration nor login yields a token, `on_start` pops
the `Authorization` entry from the client's default headers and never sets
it, so no later task sees an `Authorization` header. -/
theorem no_token_no_auth_header (env : Env) (h8 fh gh : String)
    (rs : StartResponses) (ia : Option String) (ts : List TaskKind)
    (h : pyTruthy (on_start env h8 fh gh rs ia).state.token = false) :
    (on_start env h8 fh gh rs ia).state.authHeader = Option.none
    ∧ (runTasks ts (on_start env h8 fh gh rs ia).state).1.authHeader
        = Option.none := by
  have ht := on_start_token env h8 fh gh rs ia
  rw [ht] at h
  have h1 : (on_start env h8 fh gh rs ia).state.authHeader = Option.none := by
    rw [on_start_auth, if_neg]
    simp [h]
  exact ⟨h1, by rw [runTasks_state]; exact h1⟩

/-- C4 witness: a session whose register and login both fail (and whose
fresh client carried a stale `Authorization` header) runs all three tasks
with no `Authorization` header. -/
theorem no_token_no_auth_header_witness :
    pyTruthy (on_start ⟨Option.none, Option.none⟩ "ab" "cd" "ef"
        ⟨⟨400, Option.none⟩, ⟨403, Option.none⟩, ⟨201, Option.none⟩,
         ⟨201, Option.none⟩, ⟨201, Option.none⟩⟩
        (some "Token stale")).state.token = false
    ∧ (runTasks [TaskKind.listResources, TaskKind.calcTask,
          TaskKind.pingApiRoot]
        (on_start ⟨Option.none, Option.none⟩ "ab" "cd" "ef"
          ⟨⟨400, Option.none⟩, ⟨403, Option.none⟩, ⟨201, Option.none⟩,
           ⟨201, Option.none⟩, ⟨201, Option.none⟩⟩
          (some "Token stale")).state).1.authHeader = Option.none :=
  ⟨by decide,
   (no_token_no_auth_header ⟨Option.none, Option.none⟩ "ab" "cd" "ef"
     ⟨⟨400, Option.none⟩, ⟨403, Option.none⟩, ⟨201, Option.none⟩,
      ⟨201, Option.none⟩, ⟨201, Option.none⟩⟩
     (some "Token stale")
     [TaskKind.listResources, TaskKind.calcTask, TaskKind.pingApiRoot]
     (by decide)).2⟩

/-- C6 counterexample: a login response with status 201 and a token in its
JSON body is ignored — the stored token stays `None` — refuting the claim
that login extracts the token on 200 or 201 like registration does. -/
theorem login_201_token_ignored :
    ((on_start ⟨Option.none, Option.none⟩ "u" "f" "g"
        ⟨⟨400, Option.none⟩,
         ⟨201, some [("token", PyVal.str "tok")]⟩,
         ⟨400, Option.none⟩, ⟨400, Option.none⟩, ⟨400, Option.none⟩⟩
        Option.none).state.token = PyVal.none)
    ∧ ((on_start ⟨Option.none, Option.none⟩ "u" "f" "g"
        ⟨⟨400, Option.none⟩,
         ⟨201, some [("token", PyVal.str "tok")]⟩,
         ⟨400, Option.none⟩, ⟨400, Option.none⟩, ⟨400, Option.none⟩⟩
        Option.none).trace.filter isLoginReq
          = [Req.login "locust_admin_u" "locustpass"])
    ∧ jsonGet [("token", PyVal.str "tok")] "token" = PyVal.str "tok" :=
  ⟨by decide, by decide, by decide⟩

/-- C6 (amended): the login call shares the registration call's response
handling only on status 200 — `resp.json().get('token')` is stored exactly
when the login status equals 200 (parse failures caught, token `None`);
any other status, 201 included, leaves the token at its previous falsy
value. -/
theorem login_token_only_on_200 (env : Env) (h8 fh gh : String)
    (rs : StartResponses) (ia : Option String)
    (hreg : pyTruthy (registerToken rs.register) = false) :
    (∀ kv, rs.login.status_code = 200 → rs.login.body = some kv →
       (on_start env h8 fh gh rs ia).state.token = jsonGet kv "token")
    ∧ (rs.login.status_code = 200 → rs.login.body = Option.none →
       (on_start env h8 fh gh rs ia).state.token = PyVal.none)
    ∧ (rs.login.status_code ≠ 200 →
       (on_start env h8 fh gh rs ia).state.token
         = registerToken rs.register) := by
  have ht := on_start_token env h8 fh gh rs ia
  unfold startToken at ht
  rw [if_neg (by simp [hreg])] at ht
  refine ⟨?_, ?_, ?_⟩
  · intro kv h200 hb
    rw [ht]
    unfold loginToken
    rw [if_pos h200, hb]
  · intro h200 hb
    rw [ht]
    unfold loginToken
    rw [if_pos h200, hb]
  · intro hne
    rw [ht]
    unfold loginToken
    rw [if_neg hne]

/-- C6 witness: a 200 login response with a token is extracted. -/
theorem login_token_only_on_200_witness :
    pyTruthy (registerToken ⟨400, Option.none⟩) = false
    ∧ (on_start ⟨Option.none, Option.none⟩ "u" "f" "g"
        ⟨⟨400, Option.none⟩,
         ⟨200, some [("token", PyVal.str "t2")]⟩,
         ⟨400, Option.none⟩, ⟨400, Option.none⟩, ⟨400, Option.none⟩⟩
        Option.none).state.token = PyVal.str "t2" :=
  ⟨by decide,
   ((login_token_only_on_200 ⟨Option.none, Option.none⟩ "u" "f" "g"
      ⟨⟨400, Option.none⟩,
       ⟨200, some [("token", PyVal.str "t2")]⟩,
       ⟨400, Option.none⟩, ⟨400, Option.none⟩, ⟨400, Option.none⟩⟩
      Option.none (by decide)).1
     [("token", PyVal.str "t2")] rfl rfl).trans (by decide)⟩

/-- C7 counterexample: a 200 nutrient-creation response whose body does not
parse makes the unguarded `r.json()` raise out of `on_start`, refuting the
claim that no exception is ever raised out of `on_start`. -/
theorem on_start_raises_on_unparseable_creation_body :
    (on_start ⟨Option.none, Option.none⟩ "u" "f" "g"
      ⟨⟨200, some [("token", PyVal.str "tok")]⟩, ⟨400, Option.none⟩,
       ⟨200, Option.none⟩, ⟨400, Option.none⟩, ⟨400, Option.none⟩⟩
      Option.none).raised = true := by decide

/-- C7 (amended): a failure to parse the JSON body of a 2xx register or
login response is caught and logged and execution continues with the token
unset; no exception escapes `on_start` provided every 2xx resource-creation
response has a parseable body (otherwise the unguarded `r.json()` raises),
and no exception escapes the tasks provided fish ids are integers. -/
theorem parse_failures_caught_and_no_raise (env : Env) (h8 fh gh : String)
    (rs : StartResponses) (ia : Option String)
    (hn : RespWF rs.nutrient) (hf : RespWF rs.fish) (hg : RespWF rs.feed)
    (hfid : ∀ kv, rs.fish.body = some kv →
       jsonGet kv "id" = PyVal.none
       ∨ ∃ n : Int, jsonGet kv "id" = PyVal.int n) :
    ((rs.register.status_code = 200 ∨ rs.register.status_code = 201) →
       rs.register.body = Option.none → registerToken rs.register = PyVal.none)
    ∧ (on_start env h8 fh gh rs ia).raised = false
    ∧ (calculate (on_start env h8 fh gh rs ia).state).raised = false
    ∧ (∀ st : UserState, (list_resources st).raised = false
        ∧ (ping_api_root st).raised = false) := by
  refine ⟨?_, on_start_raised env h8 fh gh rs ia hn hf hg, ?_,
    fun st => ⟨rfl, rfl⟩⟩
  · intro h2 hb
    unfold registerToken
    rw [if_pos h2, hb]
  · apply calculate_raised_of_shape
    rcases on_start_fish_shape env h8 fh gh rs ia with h | ⟨kv, hkv, hval⟩
    · exact Or.inl h
    · rcases hfid kv hkv with h | ⟨n, h⟩
      · exact Or.inl (hval.trans h)
      · exact Or.inr ⟨n, hval.trans h⟩

/-- C7 witness: registration returns 200 with an unparseable body (token
stays unset, login succeeds instead), all creation responses are well
formed, and neither `on_start` nor the tasks raise. -/
theorem parse_failures_caught_and_no_raise_witness :
    registerToken ⟨200, Option.none⟩ = PyVal.none
    ∧ (on_start ⟨Option.none, Option.none⟩ "u" "f" "g"
        ⟨⟨200, Option.none⟩, ⟨200, some [("token", PyVal.str "t")]⟩,
         ⟨201, some [("id", PyVal.int 5)]⟩, ⟨201, some [("id", PyVal.int 9)]⟩,
         ⟨201, some [("id", PyVal.int 3)]⟩⟩
        Option.none).raised = false
    ∧ (calculate (on_start ⟨Option.none, Option.none⟩ "u" "f" "g"
        ⟨⟨200, Option.none⟩, ⟨200, some [("token", PyVal.str "t")]⟩,
         ⟨201, some [("id", PyVal.int 5)]⟩, ⟨201, some [("id", PyVal.int 9)]⟩,
         ⟨201, some [("id", PyVal.int 3)]⟩⟩
        Option.none).state).raised = false := by
  have h := parse_failures_caught_and_no_raise ⟨Option.none, Option.none⟩
    "u" "f" "g"
    ⟨⟨200, Option.none⟩, ⟨200, some [("token", PyVal.str "t")]⟩,
     ⟨201, some [("id", PyVal.int 5)]⟩, ⟨201, some [("id", PyVal.int 9)]⟩,
     ⟨201, some [("id", PyVal.int 3)]⟩⟩
    Option.none (fun _ h => Option.noConfusion h)
    (fun _ h => Option.noConfusion h) (fun _ h => Option.noConfusion h)
    (fun kv hkv => by
      rcases Option.some.inj hkv with rfl
      exact Or.inr ⟨9, by decide⟩)
  exact ⟨h.1 (Or.inl rfl) rfl, h.2.1, h.2.2.1⟩
